import Mathlib

/-
  Verification of the call-session state machine of the voice appointment
  scheduler (src/server.js and the delegate service module).

  The JavaScript source is shallowly embedded: each Express handler becomes a
  pure function from the session (and the event's payload) to the new session
  plus the list of TwiML instructions it emits; the in-memory `callSessions`
  Map becomes an association list with JS `Map.set`/`Map.get` semantics; the
  delegate's output parsing (`getClaudeResponse`) is modelled on the raw text
  it receives from the backend, with the regex matching and `String.replace`
  translated character by character.  Statuses, roles and reasons stay the
  raw strings the source uses.
-/

namespace Scheduler

/-- JS whitespace as matched by the regex class backslash-s and by
`String.prototype.trim`, restricted to the ASCII range the system's texts use
(space, tab, line feed, carriage return, vertical tab, form feed). -/
def isWs (c : Char) : Bool :=
  c == ' ' || c == '\t' || c == '\n' || c == '\r' || c == '\x0b' || c == '\x0c'

/-- `String.prototype.trim`: strip leading and trailing whitespace. -/
def trimL (l : List Char) : List Char :=
  ((l.dropWhile isWs).reverse.dropWhile isWs).reverse

/-- Whether the first list is a leading segment of the second. -/
def startsWithL : List Char → List Char → Bool
  | [], _ => true
  | _ :: _, [] => false
  | a :: as, b :: bs => a == b && startsWithL as bs

/-- Whether `pat` occurs somewhere inside the second list. -/
def containsL (pat : List Char) : List Char → Bool
  | [] => startsWithL pat []
  | c :: rest => startsWithL pat (c :: rest) || containsL pat rest

/-- Substring test on strings (JS `String.prototype.includes`). -/
def strContains (hay pat : String) : Bool :=
  containsL pat.data hay.data

/-- The characters before the first closing brace, or `none` when there is no
closing brace (the lazy regex piece matching up to the first such brace). -/
def upToCloseBrace : List Char → Option (List Char)
  | [] => none
  | c :: rest => if c == '}' then some [] else (upToCloseBrace rest).map (c :: ·)

/-- The capture of the source's marker regex (the marker word and colon, then
optional whitespace, then a brace-delimited payload matched lazily up to the
first closing brace) when the regex matches at the head of `l`. -/
def markerCaptureAt (pat l : List Char) : Option (List Char) :=
  if startsWithL pat l then
    match (l.drop pat.length).dropWhile isWs with
    | '{' :: rest => (upToCloseBrace rest).map (fun body => '{' :: (body ++ ['}']))
    | _ => none
  else none

/-- First match of the marker regex over the whole text: the capture at the
leftmost position where the regex matches, as `String.prototype.match` finds it. -/
def findCapture (pat : List Char) : List Char → Option (List Char)
  | [] => markerCaptureAt pat []
  | c :: rest =>
    match markerCaptureAt pat (c :: rest) with
    | some cap => some cap
    | none => findCapture pat rest

/-- JS `text.replace(re, "")` for the source's strip regexes, which anchor with
a trailing match-everything-to-the-end: the text before the first occurrence
of `pat`, or the whole text when `pat` does not occur. -/
def dropFromFirst (pat : List Char) : List Char → List Char
  | [] => []
  | c :: rest => if startsWithL pat (c :: rest) then [] else c :: dropFromFirst pat rest

def confirmedMarker : List Char := "APPOINTMENT_CONFIRMED:".data

def failedMarker : List Char := "APPOINTMENT_FAILED:".data

def confirmedStrip : List Char := "\nAPPOINTMENT_CONFIRMED:".data

def failedStrip : List Char := "\nAPPOINTMENT_FAILED:".data

/-- A JS value as the outcome objects hold one: a boolean (the confirmed
flag, or a payload `true`/`false`), a string, or null. -/
inductive JsVal where
  | bool : Bool → JsVal
  | str : String → JsVal
  | null : JsVal
deriving DecidableEq

/-- Body of a JSON string literal after its opening quote: the decoded string
and the rest of the input after the closing quote.  Escape sequences are out
of the modelled fragment (a backslash fails the parse); the wire-format
payloads are plain quoted strings. -/
def parseJStringBody (acc : List Char) : List Char → Option (String × List Char)
  | [] => none
  | c :: rest =>
    if c == '"' then some (String.mk acc.reverse, rest)
    else if c == '\\' then none
    else parseJStringBody (c :: acc) rest

/-- A JSON string literal at the head of the input. -/
def parseJString (l : List Char) : Option (String × List Char) :=
  match l with
  | '"' :: rest => parseJStringBody [] rest
  | _ => none

/-- A JSON value at the head of the input: a string literal or one of the
keywords true, false, null.  Numbers, arrays and nested objects are outside
the modelled fragment and fail the parse. -/
def parseJValue (l : List Char) : Option (JsVal × List Char) :=
  match parseJString l with
  | some (s, rest) => some (JsVal.str s, rest)
  | none =>
    if startsWithL "true".data l then some (JsVal.bool true, l.drop 4)
    else if startsWithL "false".data l then some (JsVal.bool false, l.drop 5)
    else if startsWithL "null".data l then some (JsVal.null, l.drop 4)
    else none

/-- Members of a flat JSON object with string keys, the rest of the input
required to be exactly the closing brace and trailing whitespace.  `fuel`
bounds the recursion by the input length. -/
def parseMembers : Nat → List Char → Option (List (String × JsVal))
  | 0, _ => none
  | fuel + 1, l =>
    match parseJString (l.dropWhile isWs) with
    | none => none
    | some (k, r1) =>
      match r1.dropWhile isWs with
      | ':' :: r2 =>
        match parseJValue (r2.dropWhile isWs) with
        | none => none
        | some (v, r3) =>
          match r3.dropWhile isWs with
          | ',' :: r4 => (parseMembers fuel r4).map (fun tl => (k, v) :: tl)
          | '}' :: r4 => if (r4.dropWhile isWs).isEmpty then some [(k, v)] else none
          | _ => none
      | _ => none

/-- JS object property assignment: update the value in place when the key is
already a property, else append the property. -/
def objSet (k : String) (v : JsVal) : List (String × JsVal) → List (String × JsVal)
  | [] => [(k, v)]
  | (k2, v2) :: rest => if k2 = k then (k2, v) :: rest else (k2, v2) :: objSet k v rest

/-- The JS object built by assigning the listed properties in order: the key
set is unique, a repeated key keeps its first position with its last value —
as JSON.parse builds an object from members and as a spread assigns them. -/
def jsObj (props : List (String × JsVal)) : List (String × JsVal) :=
  props.foldl (fun acc p => objSet p.1 p.2 acc) []

/-- Property lookup on a JS object. -/
def lookupProp (k : String) : List (String × JsVal) → Option JsVal
  | [] => none
  | (k2, v) :: rest => if k2 = k then some v else lookupProp k rest

/-- `JSON.parse` on the flat objects of the outcome wire format
("APPOINTMENT_CONFIRMED: ..." and "APPOINTMENT_FAILED: ..." payloads):
string keys with string, boolean or null values, duplicate keys collapsed
the way JS objects collapse them; any input outside that fragment counts as
a parse failure, which the source handles through its catch branch. -/
def parseFlatJson (l : List Char) : Option (List (String × JsVal)) :=
  match l.dropWhile isWs with
  | '{' :: rest =>
    match rest.dropWhile isWs with
    | '}' :: r2 => if (r2.dropWhile isWs).isEmpty then some [] else none
    | r => (parseMembers (r.length + 1) r).map jsObj
  | _ => none

/-- An appointment-result object: the value of its `confirmed` property —
which always sits in the first slot — and the remaining properties in
insertion order. -/
structure ApptResult where
  confirmed : JsVal
  fields : List (String × JsVal)
deriving DecidableEq

/-- Result of one delegate turn as the webhook consumes it: the spoken
response, the completion flag and the appointment result. -/
structure ClaudeTurn where
  response : String
  isComplete : Bool
  appointmentResult : Option ApptResult
deriving DecidableEq

/-- The JS spread the source builds a parsed outcome with: the confirmed
property is created first with the branch's flag, then the payload's
properties are assigned in order — so a `confirmed` key inside the payload
overrides the flag (keeping the first slot) and the payload's other keys
follow in their own order. -/
def spreadResult (flag : Bool) (data : List (String × JsVal)) : ApptResult :=
  { confirmed :=
      match lookupProp "confirmed" data with
      | some v => v
      | none => JsVal.bool flag,
    fields := data.filter (fun p => p.1 != "confirmed") }

/-- The result object the confirmed branch builds: the payload spread after
confirmed: true, or — when the payload does not parse — the raw capture
under a `raw` property with the flag fixed (no spread on that path). -/
def confirmedResultOf (cap : List Char) : ApptResult :=
  match parseFlatJson cap with
  | some data => spreadResult true data
  | none => { confirmed := JsVal.bool true, fields := [("raw", JsVal.str (String.mk cap))] }

/-- The result object the failed branch builds, analogously with
confirmed: false. -/
def failedResultOf (cap : List Char) : ApptResult :=
  match parseFlatJson cap with
  | some data => spreadResult false data
  | none => { confirmed := JsVal.bool false, fields := [("raw", JsVal.str (String.mk cap))] }

/-- The parsing half of `getClaudeResponse` in the delegate service module:
trim the raw backend text, look for the confirmed marker first and the failed
marker second, build the result from the captured payload (falling back to
the raw capture when the payload does not parse), and strip everything from
the first newline-preceded marker occurrence out of the spoken text.  The
network call itself is external; its text arrives as the argument. -/
def getClaudeResponse (rawText : String) : ClaudeTurn :=
  let fullText := trimL rawText.data
  match findCapture confirmedMarker fullText with
  | some cap =>
    { response := String.mk (trimL (dropFromFirst confirmedStrip fullText)),
      isComplete := true, appointmentResult := some (confirmedResultOf cap) }
  | none =>
    match findCapture failedMarker fullText with
    | some cap =>
      { response := String.mk (trimL (dropFromFirst failedStrip fullText)),
        isComplete := true, appointmentResult := some (failedResultOf cap) }
    | none =>
      { response := String.mk fullText, isComplete := false, appointmentResult := none }

/-- `buildInitialGreeting` from src/server.js.  JS truthiness of the optional
date and time strings is non-emptiness; the destructured `hairdresserName`
is unused by the source's text and kept here for the same signature. -/
def buildInitialGreeting (customerName hairdresserName service preferredDate preferredTime : String) : String :=
  let _ := hairdresserName
  let greeting := "Hello! I'm calling on behalf of " ++ customerName ++ " to schedule a " ++ service ++ " appointment."
  let clause :=
    if !preferredDate.isEmpty && !preferredTime.isEmpty then
      " They were hoping to come in on " ++ preferredDate ++ " around " ++ preferredTime ++ "."
    else if !preferredDate.isEmpty then
      " They were hoping to come in on " ++ preferredDate ++ "."
    else if !preferredTime.isEmpty then
      " They were hoping to come in around " ++ preferredTime ++ "."
    else
      " They are flexible on timing and are looking for the next available slot."
  greeting ++ clause ++ " Is that something you can help me with?"

/-- The booking preferences stored on the session by the call-initiation
handler. -/
structure UserPrefs where
  customerName : String
  hairdresserName : String
  service : String
  preferredDate : String
  preferredTime : String
  hairdresserPhone : String
deriving DecidableEq

/-- One call session as the source stores it in the `callSessions` map.
Conversation turns are (role, content) pairs with the source's role strings. -/
structure Session where
  callSid : String
  userPreferences : UserPrefs
  initialGreeting : String
  claudeMessages : List (String × String)
  transcript : List (String × String)
  status : String
  twilioStatus : String
  appointmentResult : Option ApptResult
  createdAt : Nat
deriving DecidableEq

/-- The terminal status set exposed to polling clients. -/
def terminalStatuses : List String := ["completed", "failed", "no-answer", "busy", "canceled"]

/-- One TwiML instruction of a webhook response: a gather that speaks a text
and listens for speech, a plain say, a pause, a hangup, or the redirect to
the no-input route that follows every gather. -/
inductive Instr where
  | gatherSay : String → Instr
  | say : String → Instr
  | pause : Nat → Instr
  | hangup : Instr
  | redirectNoInput : Instr
deriving DecidableEq

/-- Whether an instruction tells the carrier to listen for speech. -/
def isGatherInstr : Instr → Bool
  | Instr.gatherSay _ => true
  | _ => false

def techErrorApology : String :=
  "I apologize, I encountered a technical issue. I will have the customer reach out directly. Thank you and goodbye."

def noInputReprompt : String :=
  "I'm sorry, I didn't catch that. Are you able to help me schedule an appointment?"

def noInputGoodbye : String :=
  "I didn't receive a response. I'll have the customer follow up directly. Goodbye."

def sessionErrorMsg : String := "Sorry, an error occurred. Goodbye."

/-- POST /voice/start on a session the registry knows: status becomes
in-progress unconditionally, the greeting is spoken inside a gather, and the
response falls through to the no-input redirect. -/
def voiceStart (s : Session) : Session × List Instr :=
  ({ s with status := "in-progress" },
   [Instr.gatherSay s.initialGreeting, Instr.redirectNoInput])

/-- POST /voice/gather on a session the registry knows.  `delegate` is the
outcome of the awaited backend call: the raw response text, or `none` when
the call threw (the handler's catch branch).  The respondent's speech is
recorded first; then the delegate turn is parsed and either ends the call
(completed), keeps listening, or — on delegate failure — fails the session
with a spoken apology. -/
def voiceGather (speech : String) (delegate : Option String) (s : Session) : Session × List Instr :=
  let s1 := { s with
    claudeMessages := s.claudeMessages ++ [("user", speech)],
    transcript := s.transcript ++ [("user", speech)] }
  match delegate with
  | none =>
    ({ s1 with
        status := "failed",
        appointmentResult := some { confirmed := JsVal.bool false, fields := [("reason", JsVal.str "Technical error during call")] },
        transcript := s1.transcript ++ [("assistant", techErrorApology)] },
     [Instr.say techErrorApology, Instr.hangup])
  | some rawText =>
    let turn := getClaudeResponse rawText
    let s2 := { s1 with
      claudeMessages := s1.claudeMessages ++ [("assistant", turn.response)],
      transcript := s1.transcript ++ [("assistant", turn.response)] }
    if turn.isComplete then
      ({ s2 with status := "completed", appointmentResult := turn.appointmentResult },
       [Instr.say turn.response, Instr.pause 1, Instr.hangup])
    else
      (s2, [Instr.gatherSay turn.response, Instr.redirectNoInput])

/-- POST /voice/no-input on a session the registry knows: the response always
re-prompts once inside a gather and then falls through to the goodbye and
hangup; the session is moved to no-answer with a no-response outcome whenever
its status is not the string completed. -/
def voiceNoInput (s : Session) : Session × List Instr :=
  let ins := [Instr.gatherSay noInputReprompt, Instr.say noInputGoodbye, Instr.hangup]
  if s.status ≠ "completed" then
    ({ s with
        status := "no-answer",
        appointmentResult := some { confirmed := JsVal.bool false, fields := [("reason", JsVal.str "No response from salon")] } },
     ins)
  else (s, ins)

/-- POST /voice/status on a session the registry knows: the raw carrier status
is always recorded; a carrier-terminal status additionally moves a
non-completed session to it and fills the outcome only when it is still null. -/
def voiceStatus (callStatus : String) (s : Session) : Session :=
  let s1 := { s with twilioStatus := callStatus }
  if callStatus ∈ ["failed", "busy", "no-answer", "canceled"] then
    if s1.status ≠ "completed" then
      let s2 := { s1 with status := if callStatus = "busy" then "busy" else callStatus }
      if s2.appointmentResult = none then
        { s2 with appointmentResult := some { confirmed := JsVal.bool false, fields := [("reason", JsVal.str ("Call " ++ callStatus))] } }
      else s2
    else s1
  else s1

/-- An inbound telephony or delegate event for one session: the answered
webhook, a speech result together with the delegate call's outcome, the
no-input redirect, or a lifecycle status callback. -/
inductive Event where
  | start : Event
  | gather : String → Option String → Event
  | noInput : Event
  | statusCb : String → Event
deriving DecidableEq

/-- The state part of dispatching one event to a session. -/
def step (s : Session) : Event → Session
  | Event.start => (voiceStart s).1
  | Event.gather speech d => (voiceGather speech d s).1
  | Event.noInput => (voiceNoInput s).1
  | Event.statusCb cs => voiceStatus cs s

def runEvents (s : Session) (es : List Event) : Session := es.foldl step s

/-- The `callSessions` map, with JS `Map` insertion-order semantics. -/
abbrev Registry := List (String × Session)

/-- JS `Map.prototype.get`: the stored session or undefined. -/
def mapGet (r : Registry) (k : String) : Option Session :=
  match r with
  | [] => none
  | (k2, v) :: rest => if k2 = k then some v else mapGet rest k

/-- JS `Map.prototype.set`: update an existing key in place, else append. -/
def mapSet (k : String) (v : Session) (r : Registry) : Registry :=
  match r with
  | [] => [(k, v)]
  | (k2, v2) :: rest => if k2 = k then (k2, v) :: rest else (k2, v2) :: mapSet k v rest

def regKeys (r : Registry) : List String := r.map (fun p => p.1)

/-- The voice webhook router: look the session up by call sid; an unknown sid
gets the generic apology (or, on the no-input route, the route's fixed TwiML;
on the status route, a bare 200) and leaves the registry unchanged; a known
session is put through the matching handler and written back. -/
def routeVoice (reg : Registry) (sid : String) (e : Event) : Registry × List Instr :=
  match mapGet reg sid with
  | none =>
    match e with
    | Event.start => (reg, [Instr.say sessionErrorMsg, Instr.hangup])
    | Event.gather _ _ => (reg, [Instr.say sessionErrorMsg, Instr.hangup])
    | Event.noInput => (reg, [Instr.gatherSay noInputReprompt, Instr.say noInputGoodbye, Instr.hangup])
    | Event.statusCb _ => (reg, [])
  | some s =>
    match e with
    | Event.start => (mapSet sid (voiceStart s).1 reg, (voiceStart s).2)
    | Event.gather speech d => (mapSet sid (voiceGather speech d s).1 reg, (voiceGather speech d s).2)
    | Event.noInput => (mapSet sid (voiceNoInput s).1 reg, (voiceNoInput s).2)
    | Event.statusCb cs => (mapSet sid (voiceStatus cs s) reg, [])

/-- The POST /api/call request body: each field is absent or a string. -/
structure ApiReq where
  hairdresserPhone : Option String
  hairdresserName : Option String
  customerName : Option String
  service : Option String
  preferredDate : Option String
  preferredTime : Option String
deriving DecidableEq

/-- JS falsiness of an optional request-body string: absent or empty. -/
def jsFalsy (o : Option String) : Bool :=
  match o with
  | none => true
  | some s => s.isEmpty

/-- An HTTP response of the control API, reduced to the fields the source
writes: status code and the JSON body's callSid, status and error members. -/
structure ApiResp where
  code : Nat
  callSid : Option String
  status : Option String
  error : Option String
deriving DecidableEq

def missingFieldsMsg : String := "Missing required fields: hairdresserPhone, customerName, service"

def baseUrlMsg : String :=
  "BASE_URL is not configured. Set it in your .env file to your public server URL (e.g. from ngrok)."

/-- The session object POST /api/call stores for a freshly placed call. -/
def newSession (req : ApiReq) (sid : String) (now : Nat) : Session :=
  let hairdresserName := if jsFalsy req.hairdresserName then "the salon" else req.hairdresserName.getD ""
  let customerName := req.customerName.getD ""
  let service := req.service.getD ""
  let preferredDate := req.preferredDate.getD ""
  let preferredTime := req.preferredTime.getD ""
  let greeting := buildInitialGreeting customerName hairdresserName service preferredDate preferredTime
  let prefs : UserPrefs :=
    { customerName := customerName, hairdresserName := hairdresserName, service := service,
      preferredDate := preferredDate, preferredTime := preferredTime,
      hairdresserPhone := req.hairdresserPhone.getD "" }
  { callSid := sid,
    userPreferences := prefs,
    initialGreeting := greeting,
    claudeMessages := [],
    transcript := [("assistant", greeting)],
    status := "calling",
    twilioStatus := "queued",
    appointmentResult := none,
    createdAt := now }

/-- POST /api/call.  `baseUrl` is the BASE_URL deployment configuration;
`carrier` is the outcome of the awaited outbound-call placement (the new call
sid, or the thrown error's message); the returned flag records whether that
placement request was issued at all. -/
def apiCall (req : ApiReq) (baseUrl : Option String) (carrier : Except String String)
    (now : Nat) (reg : Registry) : ApiResp × Registry × Bool :=
  if jsFalsy req.hairdresserPhone || jsFalsy req.customerName || jsFalsy req.service then
    ({ code := 400, callSid := none, status := none, error := some missingFieldsMsg }, reg, false)
  else
    match baseUrl with
    | none => ({ code := 500, callSid := none, status := none, error := some baseUrlMsg }, reg, false)
    | some _ =>
      match carrier with
      | Except.error msg =>
        ({ code := 500, callSid := none, status := none, error := some msg }, reg, true)
      | Except.ok sid =>
        ({ code := 200, callSid := some sid, status := some "calling", error := none },
         mapSet sid (newSession req sid now) reg, true)

/-- GET /api/call/:callSid, reduced to the response fields the claims touch. -/
def apiGet (reg : Registry) (sid : String) : ApiResp :=
  match mapGet reg sid with
  | none => { code := 404, callSid := none, status := none, error := some "Call not found" }
  | some s => { code := 200, callSid := some s.callSid, status := some s.status, error := none }

/-- The spec's worked delegate-output example: spoken line, then the confirmed
marker on its own line. -/
def specExampleText : String :=
  "All set!\nAPPOINTMENT_CONFIRMED: \x7b\"date\":\"Friday\",\"time\":\"3pm\",\"service\":\"haircut\",\"notes\":\"\"\x7d"

/-- A delegate output that is nothing but the confirmed marker: no newline
precedes the marker. -/
def unstrippedText : String := "APPOINTMENT_CONFIRMED: \x7b\"date\":\"Friday\"\x7d"

def rawConfirmedText : String := "Done!\nAPPOINTMENT_CONFIRMED: \x7bbroken\x7d"

def rawFailedText : String := "Sorry.\nAPPOINTMENT_FAILED: \x7bbroken\x7d"

/-- A delegate output carrying a failed marker first and a confirmed marker
after it. -/
def bothMarkersText : String :=
  "ok\nAPPOINTMENT_FAILED: \x7b\"reason\":\"full\"\x7d\nAPPOINTMENT_CONFIRMED: \x7b\"date\":\"Mon\"\x7d"

/-- A delegate output with both markers whose confirmed payload carries its
own confirmed key with the JSON value false. -/
def overrideText : String :=
  "hm\nAPPOINTMENT_CONFIRMED: \x7b\"confirmed\": false\x7d\nAPPOINTMENT_FAILED: \x7b\"reason\":\"x\"\x7d"

def sampleReq : ApiReq :=
  { hairdresserPhone := some "+15550001111", hairdresserName := some "Luigi",
    customerName := some "Alex", service := some "haircut",
    preferredDate := some "Friday", preferredTime := some "3pm" }

/-- A session exactly as POST /api/call stores it for `sampleReq`. -/
def sampleSession : Session := newSession sampleReq "CA1" 0

def completedResult : ApptResult :=
  { confirmed := JsVal.bool true,
    fields := [("date", JsVal.str "Friday"), ("time", JsVal.str "3pm"),
      ("service", JsVal.str "haircut"), ("notes", JsVal.str "")] }

/-- A session that reached completed through the conversational path. -/
def completedSample : Session :=
  { sampleSession with status := "completed", appointmentResult := some completedResult }

/-- A session after the carrier reported busy. -/
def busySample : Session := runEvents sampleSession [Event.statusCb "busy"]

/-- A session after the carrier reported the call answered. -/
def connectedSample : Session := runEvents sampleSession [Event.start]

/-- A request body missing the salon phone number. -/
def missingReq : ApiReq :=
  { hairdresserPhone := none, hairdresserName := none, customerName := some "Alex",
    service := some "haircut", preferredDate := none, preferredTime := none }

/-- A second session stored for the same call sid (later creation time). -/
def sampleSession2 : Session := newSession sampleReq "CA1" 1

lemma startsWithL_append (p b : List Char) : startsWithL p (p ++ b) = true := by
  induction p with
  | nil => rfl
  | cons c cs ih => simp [startsWithL, ih]

lemma startsWithL_self (p : List Char) : startsWithL p p = true := by
  simpa using startsWithL_append p []

lemma startsWithL_split (x y p : List Char) (h : startsWithL p (x ++ y) = true) :
    startsWithL p x = true ∨ ∃ rest, p = x ++ rest ∧ startsWithL rest y = true := by
  induction x generalizing p with
  | nil => exact Or.inr ⟨p, rfl, by simpa using h⟩
  | cons c x' ih =>
    cases p with
    | nil => exact Or.inl rfl
    | cons d p' =>
      simp only [List.cons_append, startsWithL, Bool.and_eq_true, beq_iff_eq] at h
      obtain ⟨hd, hp⟩ := h
      rcases ih p' hp with h1 | ⟨rest, hr, hs⟩
      · exact Or.inl (by simp [startsWithL, hd, h1])
      · exact Or.inr ⟨rest, by simp [hd, hr], hs⟩

lemma dropFromFirst_boundary (c0 : Char) (pt a b : List Char)
    (hnl : c0 ∉ pt) (ha : containsL (c0 :: pt) a = false) :
    dropFromFirst (c0 :: pt) (a ++ (c0 :: pt) ++ b) = a := by
  induction a with
  | nil =>
    show dropFromFirst (c0 :: pt) (c0 :: (pt ++ b)) = []
    have h1 : startsWithL (c0 :: pt) (c0 :: (pt ++ b)) = true := startsWithL_append (c0 :: pt) b
    simp [dropFromFirst, h1]
  | cons c a' ih =>
    have ha' : startsWithL (c0 :: pt) (c :: a') = false ∧ containsL (c0 :: pt) a' = false := by
      simpa [containsL] using ha
    have hsw : startsWithL (c0 :: pt) (c :: (a' ++ c0 :: (pt ++ b))) = false := by
      cases hcon : startsWithL (c0 :: pt) (c :: (a' ++ c0 :: (pt ++ b))) with
      | false => rfl
      | true =>
        exfalso
        have htrue : startsWithL (c0 :: pt) ((c :: a') ++ ((c0 :: pt) ++ b)) = true := by
          simpa using hcon
        rcases startsWithL_split (c :: a') ((c0 :: pt) ++ b) (c0 :: pt) htrue with h1 | ⟨rest, hr, hs⟩
        · rw [ha'.1] at h1; exact Bool.false_ne_true h1
        · cases rest with
          | nil =>
            have : c0 :: pt = c :: a' := by simpa using hr
            rw [this] at ha'
            have := startsWithL_self (c :: a')
            rw [ha'.1] at this; exact Bool.false_ne_true this
          | cons r rs =>
            have hpt : pt = a' ++ r :: rs := by
              have := hr
              simp only [List.cons_append, List.cons.injEq] at this
              exact this.2
            have hrc : r = c0 := by
              simp only [List.cons_append, startsWithL, Bool.and_eq_true, beq_iff_eq] at hs
              exact hs.1
            exact hnl (by rw [hpt, hrc] at *; exact List.mem_append_right a' (List.mem_cons_self c0 rs))
    have step : dropFromFirst (c0 :: pt) ((c :: a') ++ (c0 :: pt) ++ b) =
        c :: dropFromFirst (c0 :: pt) (a' ++ (c0 :: pt) ++ b) := by
      show dropFromFirst (c0 :: pt) (c :: (a' ++ (c0 :: pt) ++ b)) = _
      simp [dropFromFirst, hsw]
    rw [step, ih ha'.2]

lemma containsL_cons_of (pat : List Char) (c : Char) (l : List Char)
    (h : containsL pat l = true) : containsL pat (c :: l) = true := by
  simp [containsL, h]

lemma containsL_append_left (pat a l : List Char) (h : containsL pat l = true) :
    containsL pat (a ++ l) = true := by
  induction a with
  | nil => simpa using h
  | cons c a' ih => simpa using containsL_cons_of pat c _ ih

lemma containsL_self_append (p b : List Char) : containsL p (p ++ b) = true := by
  cases p with
  | nil => cases b <;> simp [containsL, startsWithL]
  | cons c cs =>
    have h1 : startsWithL (c :: cs) (c :: (cs ++ b)) = true := by
      simpa using startsWithL_append (c :: cs) b
    simp [containsL, h1]

lemma containsL_intro (p a b hay : List Char) (h : hay = a ++ (p ++ b)) :
    containsL p hay = true := by
  subst h
  exact containsL_append_left p a _ (containsL_self_append p b)

lemma confirmedStrip_eq : confirmedStrip = '\n' :: "APPOINTMENT_CONFIRMED:".data := by decide

lemma failedStrip_eq : failedStrip = '\n' :: "APPOINTMENT_FAILED:".data := by decide

/-- C3 (amended): a delegate text with an outcome marker parses to terminal =
true with the outcome built from the captured payload (confirmed checked
first); the marker and everything after it is stripped from the spoken text
whenever the first occurrence of the newline-plus-marker pattern cuts the
text at a point not preceded by an earlier such occurrence — the strip keys
on a newline before the marker, so a marker with no newline before it stays
in the spoken text (see the counterexample); a text with no marker parses to
terminal = false with the spoken text equal to the full trimmed input. -/
theorem c3_marker_strip_amended :
    (∀ t cap, findCapture confirmedMarker (trimL t.data) = some cap →
        (getClaudeResponse t).isComplete = true ∧
        (getClaudeResponse t).appointmentResult = some (confirmedResultOf cap)) ∧
    (∀ t cap, findCapture confirmedMarker (trimL t.data) = none →
        findCapture failedMarker (trimL t.data) = some cap →
        (getClaudeResponse t).isComplete = true ∧
        (getClaudeResponse t).appointmentResult = some (failedResultOf cap)) ∧
    (∀ t a b cap, trimL t.data = a ++ confirmedStrip ++ b →
        containsL confirmedStrip a = false →
        findCapture confirmedMarker (trimL t.data) = some cap →
        (getClaudeResponse t).response = String.mk (trimL a)) ∧
    (∀ t a b cap, trimL t.data = a ++ failedStrip ++ b →
        containsL failedStrip a = false →
        findCapture confirmedMarker (trimL t.data) = none →
        findCapture failedMarker (trimL t.data) = some cap →
        (getClaudeResponse t).response = String.mk (trimL a)) ∧
    (∀ t, findCapture confirmedMarker (trimL t.data) = none →
        findCapture failedMarker (trimL t.data) = none →
        (getClaudeResponse t).isComplete = false ∧
        (getClaudeResponse t).response = String.mk (trimL t.data)) := by
  refine ⟨?_, ?_, ?_, ?_, ?_⟩
  · intro t cap h
    simp [getClaudeResponse, h]
  · intro t cap h1 h2
    simp [getClaudeResponse, h1, h2]
  · intro t a b cap hdec hnc h
    have hresp : (getClaudeResponse t).response =
        String.mk (trimL (dropFromFirst confirmedStrip (trimL t.data))) := by
      simp [getClaudeResponse, h]
    rw [hresp, hdec, confirmedStrip_eq] at *
    rw [dropFromFirst_boundary '\n' "APPOINTMENT_CONFIRMED:".data a b (by decide) hnc]
  · intro t a b cap hdec hnc h1 h2
    have hresp : (getClaudeResponse t).response =
        String.mk (trimL (dropFromFirst failedStrip (trimL t.data))) := by
      simp [getClaudeResponse, h1, h2]
    rw [hresp, hdec, failedStrip_eq] at *
    rw [dropFromFirst_boundary '\n' "APPOINTMENT_FAILED:".data a b (by decide) hnc]
  · intro t h1 h2
    simp [getClaudeResponse, h1, h2]

theorem c3_marker_strip_amended_witness :
    (getClaudeResponse specExampleText).isComplete = true ∧
    (getClaudeResponse specExampleText).appointmentResult =
      some (confirmedResultOf "\x7b\"date\":\"Friday\",\"time\":\"3pm\",\"service\":\"haircut\",\"notes\":\"\"\x7d".data) ∧
    (getClaudeResponse specExampleText).response = String.mk (trimL "All set!".data) :=
  ⟨(c3_marker_strip_amended.1 specExampleText
      "\x7b\"date\":\"Friday\",\"time\":\"3pm\",\"service\":\"haircut\",\"notes\":\"\"\x7d".data (by decide)).1,
   (c3_marker_strip_amended.1 specExampleText
      "\x7b\"date\":\"Friday\",\"time\":\"3pm\",\"service\":\"haircut\",\"notes\":\"\"\x7d".data (by decide)).2,
   c3_marker_strip_amended.2.2.1 specExampleText "All set!".data
      (" \x7b\"date\":\"Friday\",\"time\":\"3pm\",\"service\":\"haircut\",\"notes\":\"\"\x7d".data)
      "\x7b\"date\":\"Friday\",\"time\":\"3pm\",\"service\":\"haircut\",\"notes\":\"\"\x7d".data
      (by decide) (by decide) (by decide)⟩

/-- C3 counterexample: on a text whose marker is not preceded by a newline the
parse is terminal but the marker is NOT stripped — the spoken text is the
whole input, marker included, refuting the claim that a present marker is
always stripped before return. -/
theorem c3_unstripped_marker_cex :
    (getClaudeResponse unstrippedText).isComplete = true ∧
    strContains (getClaudeResponse unstrippedText).response "APPOINTMENT_CONFIRMED:" = true ∧
    (getClaudeResponse unstrippedText).response = unstrippedText := by decide

/-- C4: when a marker's payload fails to parse as JSON, the turn is still
terminal and the outcome keeps the raw capture under a `raw` property, with
the confirmed flag fixed by which marker matched. -/
theorem c4_malformed_payload_raw :
    (∀ t cap, findCapture confirmedMarker (trimL t.data) = some cap →
        parseFlatJson cap = none →
        (getClaudeResponse t).isComplete = true ∧
        (getClaudeResponse t).appointmentResult =
          some { confirmed := JsVal.bool true, fields := [("raw", JsVal.str (String.mk cap))] }) ∧
    (∀ t cap, findCapture confirmedMarker (trimL t.data) = none →
        findCapture failedMarker (trimL t.data) = some cap →
        parseFlatJson cap = none →
        (getClaudeResponse t).isComplete = true ∧
        (getClaudeResponse t).appointmentResult =
          some { confirmed := JsVal.bool false, fields := [("raw", JsVal.str (String.mk cap))] }) := by
  constructor
  · intro t cap h hp
    simp [getClaudeResponse, h, confirmedResultOf, hp]
  · intro t cap h1 h2 hp
    simp [getClaudeResponse, h1, h2, failedResultOf, hp]

theorem c4_malformed_payload_raw_witness :
    ((getClaudeResponse rawConfirmedText).isComplete = true ∧
      (getClaudeResponse rawConfirmedText).appointmentResult =
        some { confirmed := JsVal.bool true, fields := [("raw", JsVal.str (String.mk "\x7bbroken\x7d".data))] }) ∧
    ((getClaudeResponse rawFailedText).isComplete = true ∧
      (getClaudeResponse rawFailedText).appointmentResult =
        some { confirmed := JsVal.bool false, fields := [("raw", JsVal.str (String.mk "\x7bbroken\x7d".data))] }) :=
  ⟨c4_malformed_payload_raw.1 rawConfirmedText "\x7bbroken\x7d".data (by decide) (by decide),
   c4_malformed_payload_raw.2 rawFailedText "\x7bbroken\x7d".data (by decide) (by decide) (by decide)⟩

/-- C10 (amended): when both markers occur in the delegate text, the
confirmed marker is checked first and alone determines the outcome — the
turn is terminal with the result built by the confirmed branch from the
confirmed capture, never from the failed one; the outcome's confirmed
property is true whenever the payload fails to parse or parses without a
confirmed key of its own, but a confirmed key inside the parsed payload
overrides the flag with the payload's value through the spread (see the
counterexample). -/
theorem c10_confirmed_precedence_amended :
    ∀ t capC capF, findCapture confirmedMarker (trimL t.data) = some capC →
      findCapture failedMarker (trimL t.data) = some capF →
      (getClaudeResponse t).isComplete = true ∧
      (getClaudeResponse t).appointmentResult = some (confirmedResultOf capC) ∧
      (parseFlatJson capC = none → (confirmedResultOf capC).confirmed = JsVal.bool true) ∧
      (∀ data, parseFlatJson capC = some data → lookupProp "confirmed" data = none →
        (confirmedResultOf capC).confirmed = JsVal.bool true) ∧
      (∀ data v, parseFlatJson capC = some data → lookupProp "confirmed" data = some v →
        (confirmedResultOf capC).confirmed = v) := by
  intro t capC capF h1 h2
  refine ⟨?_, ?_, ?_, ?_, ?_⟩
  · simp [getClaudeResponse, h1]
  · simp [getClaudeResponse, h1]
  · intro hp
    simp [confirmedResultOf, hp]
  · intro data hp hc
    simp [confirmedResultOf, hp, spreadResult, hc]
  · intro data v hp hc
    simp [confirmedResultOf, hp, spreadResult, hc]

lemma isEmpty_false_of_ne (s : String) (h : s ≠ "") : s.isEmpty = false := by
  rw [Bool.eq_false_iff]
  intro hc
  exact h ((String.isEmpty_iff s).1 hc)

lemma strContains_intro (hay pre pat suf : String) (h : hay = pre ++ pat ++ suf) :
    strContains hay pat = true := by
  subst h
  unfold strContains
  exact containsL_intro _ pre.data suf.data _ (by simp [String.data_append, List.append_assoc])

lemma mapGet_mapSet (k : String) (v : Session) (r : Registry) :
    mapGet (mapSet k v r) k = some v := by
  induction r with
  | nil => simp [mapSet, mapGet]
  | cons p rest ih =>
    obtain ⟨k2, v2⟩ := p
    by_cases hk : k2 = k
    · simp [mapSet, mapGet, hk]
    · simp [mapSet, mapGet, hk, ih]

lemma regKeys_mapSet_of_get (k : String) (v s : Session) (r : Registry)
    (h : mapGet r k = some s) : regKeys (mapSet k v r) = regKeys r := by
  induction r with
  | nil => simp [mapGet] at h
  | cons p rest ih =>
    obtain ⟨k2, v2⟩ := p
    by_cases hk : k2 = k
    · simp [mapSet, hk, regKeys]
    · rw [show mapGet ((k2, v2) :: rest) k = mapGet rest k from by simp [mapGet, hk]] at h
      simp [mapSet, hk, regKeys] at ih ⊢
      exact ih h

lemma regKeys_cons (k2 : String) (v2 : Session) (rest : Registry) :
    regKeys ((k2, v2) :: rest) = k2 :: regKeys rest := rfl

lemma mem_regKeys_mapSet (k k2 : String) (v : Session) (r : Registry)
    (h : k ∈ regKeys r) : k ∈ regKeys (mapSet k2 v r) := by
  induction r with
  | nil => simp [regKeys] at h
  | cons p rest ih =>
    obtain ⟨k3, v3⟩ := p
    by_cases hk : k3 = k2
    · rw [regKeys_cons] at h
      rw [show mapSet k2 v ((k3, v3) :: rest) = (k3, v) :: rest from by simp [mapSet, hk]]
      rwa [regKeys_cons]
    · rw [regKeys_cons, List.mem_cons] at h
      rw [show mapSet k2 v ((k3, v3) :: rest) = (k3, v3) :: mapSet k2 v rest from by
        simp [mapSet, hk]]
      rw [regKeys_cons, List.mem_cons]
      rcases h with h | h
      · exact Or.inl h
      · exact Or.inr (ih h)

lemma mapGet_eq_none_of_not_mem (r : Registry) (k : String) (h : k ∉ regKeys r) :
    mapGet r k = none := by
  induction r with
  | nil => rfl
  | cons p rest ih =>
    obtain ⟨k2, v2⟩ := p
    rw [regKeys_cons, List.mem_cons] at h
    push_neg at h
    have hk : k2 ≠ k := fun e => h.1 e.symm
    simp only [mapGet, hk, if_false]
    exact ih h.2

lemma voiceStatus_keeps_result (s : Session) (cs : String) (r : ApptResult)
    (hr : s.appointmentResult = some r) : (voiceStatus cs s).appointmentResult = some r := by
  simp only [voiceStatus]
  split
  · split
    · split
      · simp_all
      · simpa using hr
    · simpa using hr
  · simpa using hr

/-- C1 (amended): once a session's status is completed, a later no-speech
timeout or carrier status callback leaves its status and outcome untouched —
the carrier callback then records only the carrierStatus metadata — and a
carrier status callback never overwrites a non-null outcome whatever the
status; the unrestricted first-writer-wins rule fails for other orderings,
where a no-speech timeout or a conversational/delegate terminal event does
overwrite an outcome a carrier callback had already set (see the
counterexample). -/
theorem c1_completed_outcome_immutable (s : Session) (cs : String) :
    (s.status = "completed" →
        voiceStatus cs s = { s with twilioStatus := cs } ∧ (voiceNoInput s).1 = s) ∧
    (∀ r, s.appointmentResult = some r → (voiceStatus cs s).appointmentResult = some r) := by
  constructor
  · intro h
    constructor
    · simp [voiceStatus, h]
    · simp [voiceNoInput, h]
  · intro r hr
    exact voiceStatus_keeps_result s cs r hr

theorem c1_completed_outcome_immutable_witness :
    (voiceStatus "failed" completedSample = { completedSample with twilioStatus := "failed" } ∧
      (voiceNoInput completedSample).1 = completedSample) ∧
    (voiceStatus "no-answer" completedSample).appointmentResult = some completedResult :=
  ⟨(c1_completed_outcome_immutable completedSample "failed").1 rfl,
   (c1_completed_outcome_immutable completedSample "no-answer").2 completedResult rfl⟩

/-- C1 counterexample: a carrier failed callback sets the outcome, and the
subsequent no-speech timeout — a terminal event — overwrites both the
terminal status and the non-null outcome, refuting that the first terminal
decision always wins. -/
theorem c1_outcome_overwritten_cex :
    (runEvents sampleSession [Event.statusCb "failed"]).appointmentResult =
      some { confirmed := JsVal.bool false, fields := [("reason", JsVal.str "Call failed")] } ∧
    (runEvents sampleSession [Event.statusCb "failed"]).status ∈ terminalStatuses ∧
    (runEvents sampleSession [Event.statusCb "failed", Event.noInput]).appointmentResult =
      some { confirmed := JsVal.bool false, fields := [("reason", JsVal.str "No response from salon")] } ∧
    (runEvents sampleSession [Event.statusCb "failed", Event.noInput]).status = "no-answer" := by
  decide

/-- C2 (amended): under the speech, no-input and carrier-status events a
terminal status never becomes non-terminal again; but the carrier answered
webhook (/voice/start) sets status to in-progress unconditionally for every
registered session — it is not restricted to the dialing state and is not
ignored on a terminal session (see the counterexample). -/
theorem c2_terminal_forward_amended (s : Session) (e : Event) :
    (step s Event.start).status = "in-progress" ∧
    (e ≠ Event.start → s.status ∈ terminalStatuses → (step s e).status ∈ terminalStatuses) := by
  constructor
  · rfl
  · intro hne ht
    cases e with
    | start => exact absurd rfl hne
    | gather speech d =>
      cases d with
      | none =>
        have : (step s (Event.gather speech none)).status = "failed" := by
          simp [step, voiceGather]
        rw [this]; decide
      | some raw =>
        by_cases hc : (getClaudeResponse raw).isComplete
        · have : (step s (Event.gather speech (some raw))).status = "completed" := by
            simp [step, voiceGather, hc]
          rw [this]; decide
        · have : (step s (Event.gather speech (some raw))).status = s.status := by
            simp [step, voiceGather, hc]
          rw [this]; exact ht
    | noInput =>
      by_cases h : s.status = "completed"
      · have : (step s Event.noInput).status = s.status := by
          simp [step, voiceNoInput, h]
        rw [this]; exact ht
      · have : (step s Event.noInput).status = "no-answer" := by
          simp [step, voiceNoInput, h]
        rw [this]; decide
    | statusCb cs =>
      simp only [step, voiceStatus]
      split
      · rename_i hcs
        split
        · have hmem : (if cs = "busy" then "busy" else cs) ∈ terminalStatuses := by
            simp only [List.mem_cons, List.not_mem_nil, or_false] at hcs
            rcases hcs with h | h | h | h <;> subst h <;> decide
          split
          · exact hmem
          · exact hmem
        · simpa using ht
      · simpa using ht

theorem c2_terminal_forward_amended_witness :
    (step busySample Event.start).status = "in-progress" ∧
    (step busySample Event.noInput).status ∈ terminalStatuses :=
  ⟨(c2_terminal_forward_amended busySample Event.noInput).1,
   (c2_terminal_forward_amended busySample Event.noInput).2 (by decide) (by decide)⟩

/-- C2 counterexample: after the carrier reports canceled (a terminal status)
the answered webhook still moves the session back to in-progress, a
non-terminal status — the terminal statuses are not absorbing under the
answered event. -/
theorem c2_start_reverts_cex :
    (runEvents sampleSession [Event.statusCb "canceled"]).status = "canceled" ∧
    "canceled" ∈ terminalStatuses ∧
    (runEvents sampleSession [Event.statusCb "canceled", Event.start]).status = "in-progress" ∧
    "in-progress" ∉ terminalStatuses := by
  decide

/-- C8 (amended): a no-speech timeout on any registered session whose status
is not the string completed — connected, dialing, or even already terminal —
answers with exactly one re-prompt gather (the carrier listens once more)
followed by the goodbye and hangup, and in that same step moves the session
to no-answer with the no-response outcome; the guard is only status not
completed, not non-terminality (see the counterexample), and the re-prompt
and the transition happen in one response rather than the transition waiting
out the re-prompt's listening window. -/
theorem c8_no_input_amended (s : Session) (h : s.status ≠ "completed") :
    (voiceNoInput s).1.status = "no-answer" ∧
    (voiceNoInput s).1.appointmentResult =
      some { confirmed := JsVal.bool false, fields := [("reason", JsVal.str "No response from salon")] } ∧
    (voiceNoInput s).2 = [Instr.gatherSay noInputReprompt, Instr.say noInputGoodbye, Instr.hangup] ∧
    ((voiceNoInput s).2.countP fun i => isGatherInstr i) = 1 := by
  have h2 : (voiceNoInput s).2 =
      [Instr.gatherSay noInputReprompt, Instr.say noInputGoodbye, Instr.hangup] := by
    simp [voiceNoInput, h]
  refine ⟨?_, ?_, h2, ?_⟩
  · simp [voiceNoInput, h]
  · simp [voiceNoInput, h]
  · rw [h2]
    simp [List.countP_cons, isGatherInstr]

theorem c8_no_input_amended_witness :
    (voiceNoInput connectedSample).1.status = "no-answer" ∧
    (voiceNoInput connectedSample).1.appointmentResult =
      some { confirmed := JsVal.bool false, fields := [("reason", JsVal.str "No response from salon")] } ∧
    (voiceNoInput connectedSample).2 =
      [Instr.gatherSay noInputReprompt, Instr.say noInputGoodbye, Instr.hangup] ∧
    ((voiceNoInput connectedSample).2.countP fun i => isGatherInstr i) = 1 :=
  c8_no_input_amended connectedSample (by decide)

/-- C8 counterexample: a session already terminal through a carrier busy
callback is not completed, so a no-speech timeout still fires the no-answer
transition and replaces the non-null outcome, refuting that the transition
fires only while the session is non-terminal. -/
theorem c8_terminal_fires_cex :
    busySample.status = "busy" ∧
    busySample.status ∈ terminalStatuses ∧
    busySample.appointmentResult = some { confirmed := JsVal.bool false, fields := [("reason", JsVal.str "Call busy")] } ∧
    (voiceNoInput busySample).1.status = "no-answer" ∧
    (voiceNoInput busySample).1.appointmentResult =
      some { confirmed := JsVal.bool false, fields := [("reason", JsVal.str "No response from salon")] } := by
  decide

/-- C9 (amended): a delegate-call failure on a connected session records the
respondent's speech, fails the session with outcome confirmed = false and
reason "Technical error during call" (the spec's quoted reason "technical
error" is not the source's literal — see the counterexample), answers with a
spoken apology followed by a hangup — the error is absorbed by the handler's
catch and never propagated — and a later carrier status callback cannot
change the outcome just set. -/
theorem c9_delegate_failure_amended (s : Session) (speech : String)
    (h : s.status = "in-progress") :
    (voiceGather speech none s).1.status = "failed" ∧
    (voiceGather speech none s).1.appointmentResult =
      some { confirmed := JsVal.bool false, fields := [("reason", JsVal.str "Technical error during call")] } ∧
    (voiceGather speech none s).2 = [Instr.say techErrorApology, Instr.hangup] ∧
    (voiceGather speech none s).1.transcript =
      s.transcript ++ [("user", speech), ("assistant", techErrorApology)] ∧
    (voiceStatus "canceled" (voiceGather speech none s).1).appointmentResult =
      (voiceGather speech none s).1.appointmentResult := by
  refine ⟨?_, ?_, ?_, ?_, ?_⟩
  · simp [voiceGather]
  · simp [voiceGather]
  · simp [voiceGather]
  · simp [voiceGather]
  · have hr : (voiceGather speech none s).1.appointmentResult =
        some { confirmed := JsVal.bool false, fields := [("reason", JsVal.str "Technical error during call")] } := by
      simp [voiceGather]
    rw [hr]
    exact voiceStatus_keeps_result _ "canceled" _ hr

theorem c9_delegate_failure_amended_witness :
    (voiceGather "Hello?" none connectedSample).1.status = "failed" ∧
    (voiceGather "Hello?" none connectedSample).2 = [Instr.say techErrorApology, Instr.hangup] ∧
    (voiceStatus "canceled" (voiceGather "Hello?" none connectedSample).1).appointmentResult =
      (voiceGather "Hello?" none connectedSample).1.appointmentResult :=
  ⟨(c9_delegate_failure_amended connectedSample "Hello?" (by decide)).1,
   (c9_delegate_failure_amended connectedSample "Hello?" (by decide)).2.2.1,
   (c9_delegate_failure_amended connectedSample "Hello?" (by decide)).2.2.2.2⟩

/-- C9 counterexample: the outcome the delegate-failure path writes carries
the source's reason string "Technical error during call", which is not the
reason "technical error" quoted by the claim. -/
theorem c9_reason_string_cex :
    (voiceGather "Hello?" none connectedSample).1.appointmentResult =
      some { confirmed := JsVal.bool false, fields := [("reason", JsVal.str "Technical error during call")] } ∧
    ¬ (voiceGather "Hello?" none connectedSample).1.appointmentResult =
      some { confirmed := JsVal.bool false, fields := [("reason", JsVal.str "technical error")] } := by
  decide

theorem c10_confirmed_precedence_amended_witness :
    (getClaudeResponse bothMarkersText).isComplete = true ∧
    (getClaudeResponse bothMarkersText).appointmentResult =
      some (confirmedResultOf "\x7b\"date\":\"Mon\"\x7d".data) ∧
    (confirmedResultOf "\x7b\"date\":\"Mon\"\x7d".data).confirmed = JsVal.bool true :=
  ⟨(c10_confirmed_precedence_amended bothMarkersText "\x7b\"date\":\"Mon\"\x7d".data
      "\x7b\"reason\":\"full\"\x7d".data (by decide) (by decide)).1,
   (c10_confirmed_precedence_amended bothMarkersText "\x7b\"date\":\"Mon\"\x7d".data
      "\x7b\"reason\":\"full\"\x7d".data (by decide) (by decide)).2.1,
   (c10_confirmed_precedence_amended bothMarkersText "\x7b\"date\":\"Mon\"\x7d".data
      "\x7b\"reason\":\"full\"\x7d".data (by decide) (by decide)).2.2.2.1
     [("date", JsVal.str "Mon")] (by decide) (by decide)⟩

/-- C10 counterexample: both markers are present and the confirmed payload is
the JSON object with a single confirmed: false member; JSON.parse accepts
it, the spread lets the payload key override the branch flag, and the
program's outcome has confirmed = false — not the confirmed: true the claim
asserts for every both-marker text. -/
theorem c10_payload_override_cex :
    (getClaudeResponse overrideText).isComplete = true ∧
    (getClaudeResponse overrideText).appointmentResult =
      some { confirmed := JsVal.bool false, fields := [] } ∧
    ((getClaudeResponse overrideText).appointmentResult.map ApptResult.confirmed) ≠
      some (JsVal.bool true) := by
  decide

/-- C5: the greeting always announces the caller's purpose (the fixed opening
sentence naming the customer and the service is a prefix-shaped segment of
the output); with both preferences set it contains the combined on-date
around-time clause and both raw values; with exactly one set it contains
that clause alone; with neither it contains the flexible phrasing; and on
the spec's concrete inputs the unused clauses are absent. -/
theorem c5_greeting_clauses (cn hn sv d t : String) :
    (d ≠ "" → t ≠ "" →
      strContains (buildInitialGreeting cn hn sv d t)
        (" They were hoping to come in on " ++ d ++ " around " ++ t ++ ".") = true ∧
      strContains (buildInitialGreeting cn hn sv d t) d = true ∧
      strContains (buildInitialGreeting cn hn sv d t) t = true) ∧
    (d ≠ "" → t = "" →
      strContains (buildInitialGreeting cn hn sv d t)
        (" They were hoping to come in on " ++ d ++ ".") = true) ∧
    (d = "" → t ≠ "" →
      strContains (buildInitialGreeting cn hn sv d t)
        (" They were hoping to come in around " ++ t ++ ".") = true) ∧
    (d = "" → t = "" →
      strContains (buildInitialGreeting cn hn sv d t) "flexible" = true) ∧
    (strContains (buildInitialGreeting "Alex" "the salon" "haircut" "" "") "flexible" = true ∧
      strContains (buildInitialGreeting "Alex" "the salon" "haircut" "" "") "hoping to come in" = false ∧
      strContains (buildInitialGreeting "Alex" "the salon" "haircut" "" "") " around " = false) ∧
    (strContains (buildInitialGreeting "Alex" "the salon" "haircut" "Friday" "3pm") "Friday" = true ∧
      strContains (buildInitialGreeting "Alex" "the salon" "haircut" "Friday" "3pm") "3pm" = true ∧
      strContains (buildInitialGreeting "Alex" "the salon" "haircut" "Friday" "3pm")
        "on Friday around 3pm." = true) ∧
    (strContains (buildInitialGreeting "Alex" "the salon" "haircut" "Friday" "") "on Friday." = true ∧
      strContains (buildInitialGreeting "Alex" "the salon" "haircut" "Friday" "") " around " = false ∧
      strContains (buildInitialGreeting "Alex" "the salon" "haircut" "Friday" "") "flexible" = false) ∧
    (strContains (buildInitialGreeting "Alex" "the salon" "haircut" "" "3pm") "around 3pm." = true ∧
      strContains (buildInitialGreeting "Alex" "the salon" "haircut" "" "3pm") "come in on " = false ∧
      strContains (buildInitialGreeting "Alex" "the salon" "haircut" "" "3pm") "flexible" = false) := by
  have hemp : ("" : String).isEmpty = true := rfl
  refine ⟨?_, ?_, ?_, ?_, by decide, by decide, by decide, by decide⟩
  · intro hd ht
    have hd' := isEmpty_false_of_ne d hd
    have ht' := isEmpty_false_of_ne t ht
    refine ⟨?_, ?_, ?_⟩
    · exact strContains_intro _
        ("Hello! I'm calling on behalf of " ++ cn ++ " to schedule a " ++ sv ++ " appointment.") _
        " Is that something you can help me with?"
        (by apply String.ext; simp [buildInitialGreeting, hd', ht', String.data_append, List.append_assoc])
    · exact strContains_intro _
        ("Hello! I'm calling on behalf of " ++ cn ++ " to schedule a " ++ sv ++
          " appointment. They were hoping to come in on ") _
        (" around " ++ t ++ ". Is that something you can help me with?")
        (by apply String.ext; simp [buildInitialGreeting, hd', ht', String.data_append, List.append_assoc])
    · exact strContains_intro _
        ("Hello! I'm calling on behalf of " ++ cn ++ " to schedule a " ++ sv ++
          " appointment. They were hoping to come in on " ++ d ++ " around ") _
        ". Is that something you can help me with?"
        (by apply String.ext; simp [buildInitialGreeting, hd', ht', String.data_append, List.append_assoc])
  · intro hd ht
    have hd' := isEmpty_false_of_ne d hd
    subst ht
    exact strContains_intro _
      ("Hello! I'm calling on behalf of " ++ cn ++ " to schedule a " ++ sv ++ " appointment.") _
      " Is that something you can help me with?"
      (by apply String.ext; simp [buildInitialGreeting, hd', hemp, String.data_append, List.append_assoc])
  · intro hd ht
    have ht' := isEmpty_false_of_ne t ht
    subst hd
    exact strContains_intro _
      ("Hello! I'm calling on behalf of " ++ cn ++ " to schedule a " ++ sv ++ " appointment.") _
      " Is that something you can help me with?"
      (by apply String.ext; simp [buildInitialGreeting, ht', hemp, String.data_append, List.append_assoc])
  · intro hd ht
    subst hd; subst ht
    exact strContains_intro _
      ("Hello! I'm calling on behalf of " ++ cn ++ " to schedule a " ++ sv ++
        " appointment. They are ") _
      (" on timing and are looking for the next available slot. Is that something you can help me with?")
      (by apply String.ext; simp [buildInitialGreeting, hemp, String.data_append, List.append_assoc])

theorem c5_greeting_clauses_witness :
    strContains (buildInitialGreeting "Alex" "the salon" "haircut" "Friday" "3pm")
      (" They were hoping to come in on " ++ "Friday" ++ " around " ++ "3pm" ++ ".") = true ∧
    strContains (buildInitialGreeting "Bo" "x" "trim" "Monday" "")
      (" They were hoping to come in on " ++ "Monday" ++ ".") = true ∧
    strContains (buildInitialGreeting "Bo" "x" "trim" "" "noon")
      (" They were hoping to come in around " ++ "noon" ++ ".") = true ∧
    strContains (buildInitialGreeting "Bo" "x" "trim" "" "") "flexible" = true :=
  ⟨((c5_greeting_clauses "Alex" "the salon" "haircut" "Friday" "3pm").1 (by decide) (by decide)).1,
   (c5_greeting_clauses "Bo" "x" "trim" "Monday" "").2.1 (by decide) rfl,
   (c5_greeting_clauses "Bo" "x" "trim" "" "noon").2.2.1 rfl (by decide),
   (c5_greeting_clauses "Bo" "x" "trim" "" "").2.2.2.1 rfl rfl⟩

/-- C6: POST /api/call answers 400 with the missing-fields error, places no
call and leaves the registry unchanged when any of the three required fields
is JS-falsy; answers 500 with the configuration error and places no call
when the fields are present but BASE_URL is absent; and when the placement
succeeds it answers 200 with the call sid and status calling and stores a
fresh session — status calling, null outcome, greeting-only transcript —
under that sid. -/
theorem c6_api_call_spec (req : ApiReq) (baseUrl : Option String)
    (carrier : Except String String) (now : Nat) (reg : Registry) :
    ((jsFalsy req.hairdresserPhone || jsFalsy req.customerName || jsFalsy req.service) = true →
      apiCall req baseUrl carrier now reg =
        ({ code := 400, callSid := none, status := none, error := some missingFieldsMsg }, reg, false)) ∧
    ((jsFalsy req.hairdresserPhone || jsFalsy req.customerName || jsFalsy req.service) = false →
      baseUrl = none →
      apiCall req baseUrl carrier now reg =
        ({ code := 500, callSid := none, status := none, error := some baseUrlMsg }, reg, false)) ∧
    (∀ b sid,
      (jsFalsy req.hairdresserPhone || jsFalsy req.customerName || jsFalsy req.service) = false →
      baseUrl = some b → carrier = Except.ok sid →
      (apiCall req baseUrl carrier now reg).1 =
        { code := 200, callSid := some sid, status := some "calling", error := none } ∧
      mapGet (apiCall req baseUrl carrier now reg).2.1 sid = some (newSession req sid now) ∧
      (apiCall req baseUrl carrier now reg).2.2 = true ∧
      (newSession req sid now).status = "calling" ∧
      (newSession req sid now).appointmentResult = none ∧
      (newSession req sid now).transcript =
        [("assistant", (newSession req sid now).initialGreeting)]) := by
  refine ⟨?_, ?_, ?_⟩
  · intro h
    simp [apiCall, h]
  · intro h hb
    simp [apiCall, h, hb]
  · intro b sid h hb hc
    subst hb; subst hc
    refine ⟨by simp [apiCall, h], ?_, by simp [apiCall, h], rfl, rfl, rfl⟩
    have : (apiCall req (some b) (Except.ok sid) now reg).2.1 =
        mapSet sid (newSession req sid now) reg := by
      simp [apiCall, h]
    rw [this]
    exact mapGet_mapSet sid (newSession req sid now) reg

theorem c6_api_call_spec_witness :
    (apiCall missingReq (some "https://example.test") (Except.ok "CA9") 0 [] =
      ({ code := 400, callSid := none, status := none, error := some missingFieldsMsg },
        ([] : Registry), false)) ∧
    (apiCall sampleReq none (Except.ok "CA9") 0 [] =
      ({ code := 500, callSid := none, status := none, error := some baseUrlMsg },
        ([] : Registry), false)) ∧
    ((apiCall sampleReq (some "https://example.test") (Except.ok "CA9") 0 []).1 =
      { code := 200, callSid := some "CA9", status := some "calling", error := none } ∧
      mapGet (apiCall sampleReq (some "https://example.test") (Except.ok "CA9") 0 []).2.1 "CA9" =
        some (newSession sampleReq "CA9" 0)) :=
  ⟨(c6_api_call_spec missingReq (some "https://example.test") (Except.ok "CA9") 0 []).1 (by decide),
   (c6_api_call_spec sampleReq none (Except.ok "CA9") 0 []).2.1 (by decide) rfl,
   ((c6_api_call_spec sampleReq (some "https://example.test") (Except.ok "CA9") 0 []).2.2
      "https://example.test" "CA9" (by decide) rfl rfl).1,
   ((c6_api_call_spec sampleReq (some "https://example.test") (Except.ok "CA9") 0 []).2.2
      "https://example.test" "CA9" (by decide) rfl rfl).2.1⟩

/-- C7 (amended): the registry is the plain callSessions map — create is
Map.set, which stores the session under the id and on a duplicate id
silently replaces the existing session instead of failing with
DuplicateSession (see the counterexample); get on an unknown id yields
nothing, which the polling endpoint surfaces as a 404 not-found response;
and no operation deletes an entry — every voice webhook leaves the key set
exactly as it was and the call-initiation endpoint only preserves or extends
it. -/
theorem c7_registry_amended :
    (∀ k v r, mapGet (mapSet k v r) k = some v) ∧
    (∀ r k, k ∉ regKeys r → mapGet r k = none) ∧
    (∀ r k, mapGet r k = none →
      (apiGet r k).code = 404 ∧ (apiGet r k).error = some "Call not found") ∧
    (∀ reg sid e, regKeys (routeVoice reg sid e).1 = regKeys reg) ∧
    (∀ req baseUrl carrier now reg k, k ∈ regKeys reg →
      k ∈ regKeys (apiCall req baseUrl carrier now reg).2.1) := by
  refine ⟨mapGet_mapSet, fun r k h => mapGet_eq_none_of_not_mem r k h, ?_, ?_, ?_⟩
  · intro r k h
    simp [apiGet, h]
  · intro reg sid e
    cases hg : mapGet reg sid with
    | none => cases e <;> simp [routeVoice, hg]
    | some s => cases e <;> simp [routeVoice, hg, regKeys_mapSet_of_get _ _ _ _ hg]
  · intro req baseUrl carrier now reg k hk
    by_cases h : (jsFalsy req.hairdresserPhone || jsFalsy req.customerName || jsFalsy req.service) = true
    · simpa [apiCall, h] using hk
    · rw [Bool.not_eq_true] at h
      cases baseUrl with
      | none => simpa [apiCall, h] using hk
      | some b =>
        cases carrier with
        | error msg => simpa [apiCall, h] using hk
        | ok sid2 =>
          have : (apiCall req (some b) (Except.ok sid2) now reg).2.1 =
              mapSet sid2 (newSession req sid2 now) reg := by
            simp [apiCall, h]
          rw [this]
          exact mem_regKeys_mapSet k sid2 _ reg hk

theorem c7_registry_amended_witness :
    mapGet (mapSet "CA1" sampleSession []) "CA1" = some sampleSession ∧
    mapGet ([] : Registry) "CA9" = none ∧
    (apiGet ([] : Registry) "CA9").code = 404 ∧
    regKeys (routeVoice (mapSet "CA1" sampleSession []) "CA1" Event.noInput).1 =
      regKeys (mapSet "CA1" sampleSession []) ∧
    "CA1" ∈ regKeys (apiCall sampleReq (some "https://example.test") (Except.ok "CA9") 0
      (mapSet "CA1" sampleSession [])).2.1 :=
  ⟨c7_registry_amended.1 "CA1" sampleSession [],
   c7_registry_amended.2.1 [] "CA9" (by decide),
   (c7_registry_amended.2.2.1 [] "CA9" rfl).1,
   c7_registry_amended.2.2.2.1 (mapSet "CA1" sampleSession []) "CA1" Event.noInput,
   c7_registry_amended.2.2.2.2 sampleReq (some "https://example.test") (Except.ok "CA9") 0
     (mapSet "CA1" sampleSession []) "CA1" (by decide)⟩

set_option maxRecDepth 8000 in
/-- C7 counterexample: storing a second session under an id already present
does not fail with DuplicateSession — Map.set silently replaces the stored
session, and a duplicate call-initiation request for the same sid still
answers 200. -/
theorem c7_duplicate_create_cex :
    mapGet (mapSet "CA1" sampleSession2 (mapSet "CA1" sampleSession [])) "CA1" =
      some sampleSession2 ∧
    sampleSession2 ≠ sampleSession ∧
    (apiCall sampleReq (some "https://example.test") (Except.ok "CA1") 1
      (apiCall sampleReq (some "https://example.test") (Except.ok "CA1") 0 []).2.1).1.code = 200 := by
  decide

end Scheduler
